import Mathlib

/-!
Verification of the two-tier request-routing system: an API gateway
(unnamed gateway source) forwarding to a user data service
(apps/user-service/src/index.js) backed by a key-value store.

The store is modelled as the value held under the single collection key
(`USERS_KEY`): `none` means the key is absent, `some users` is the parsed
collection (JSON serialization round-trips on well-formed data, so we work
on the parsed list directly). Store unavailability is an explicit flag:
every store operation throws when the store is down, which each handler
catches. Fresh identifiers (uuidv4) and timestamps are inputs to the
handlers. Outbound HTTP calls made by the gateway through axios are
modelled by their three observable outcomes: a 2xx response (the promise
resolves), a non-2xx response (the promise rejects with the response
attached), or a network failure such as unreachability or timeout (the
promise rejects with no response).
-/

namespace Spec2Proof

/-- A user record as stored by the data service. -/
structure User where
  id : String
  name : String
  email : String
  role : String
  createdAt : String
deriving DecidableEq

/-- Response body shapes produced by the services. -/
inductive RespBody where
  | error (msg : String)
  | user (u : User)
  | listing (data : List User) (total : Nat)
  | health (status : String) (dep : String)
  | healthy (service : String) (timestamp : String)
  | empty
deriving DecidableEq

/-- An HTTP response: status code and body. -/
structure Response where
  status : Nat
  body : RespBody
deriving DecidableEq

/-- Store operations a data-service handler performs, in order. -/
inductive StoreOp where
  | get
  | set (v : List User)
deriving DecidableEq

/-- The store as seen by the data service: availability flag and the value
under the collection key (`none` when the key is absent). -/
structure StoreState where
  avail : Bool
  users : Option (List User)
deriving DecidableEq

/-- JS falsiness of an optional string field: absent (undefined) or the
empty string. -/
def falsy : Option String → Bool
  | none => true
  | some s => s == ""

/-- Request body of a create call: `{name, email, role?}`, each field
possibly absent. -/
structure CreateBody where
  name : Option String
  email : Option String
  role : Option String
deriving DecidableEq

/-- JS `role || 'user'`: the given role unless falsy, else `user`. -/
def roleOrDefault : Option String → String
  | none => "user"
  | some r => if r == "" then "user" else r

/-- Data service `GET /health` (index.js lines 75-77): always 200 with a
healthy body. -/
def healthHandler (timestamp : String) : Response :=
  { status := 200, body := .healthy "user-service" timestamp }

/-- Data service `GET /health/ready` (index.js lines 83-93): ping the
store; 200 ready/up on success, 503 not ready/down when the ping throws
(failure or timeout). -/
def healthReady (pingOk : Bool) : Response :=
  if pingOk then { status := 200, body := .health "ready" "up" }
  else { status := 503, body := .health "not ready" "down" }

/-- Data service `initializeData` (index.js lines 97-113): connect, check
existence of the collection key, and write the sample records only when
the key is absent. Any store error is caught and leaves the state
unchanged. Returns the new state and whether a write happened. -/
def initializeData (sample : List User) (st : StoreState) : StoreState × Bool :=
  if !st.avail then (st, false)
  else
    match st.users with
    | some _ => (st, false)
    | none => ({ avail := st.avail, users := some sample }, true)

/-- Data service `GET /users` (index.js lines 115-124): read the key,
parse (absent key means empty list), respond `{data, total}`; a store
error is caught and mapped to 500. -/
def getUsers (st : StoreState) : Response × List StoreOp :=
  if !st.avail then
    ({ status := 500, body := .error "Failed to retrieve users" }, [.get])
  else
    let users := st.users.getD []
    ({ status := 200, body := .listing users users.length }, [.get])

/-- Data service `POST /users` (index.js lines 143-174): validate the
body before any store access, then read the collection, reject duplicate
emails with 409, otherwise append the new record and write the whole
collection back. Returns response, new store state, and the store
operations performed. -/
def postUsers (body : CreateBody) (st : StoreState) (freshId now : String) :
    Response × StoreState × List StoreOp :=
  if falsy body.name || falsy body.email then
    ({ status := 400, body := .error "Name and email are required" }, st, [])
  else if !st.avail then
    ({ status := 500, body := .error "Failed to create user" }, st, [.get])
  else
    let users := st.users.getD []
    let email := body.email.getD ""
    if users.any (fun u => u.email == email) then
      ({ status := 409, body := .error "Email already exists" }, st, [.get])
    else
      let newUser : User :=
        { id := freshId, name := body.name.getD "", email := email,
          role := roleOrDefault body.role, createdAt := now }
      ({ status := 201, body := .user newUser },
       { avail := st.avail, users := some (users ++ [newUser]) },
       [.get, .set (users ++ [newUser])])

/-- Data service `DELETE /users/:id` (index.js lines 176-194): read the
collection, find the record by id, 404 when absent (no write), otherwise
splice it out and write the whole collection back, responding 204. -/
def deleteUserById (id : String) (st : StoreState) : Response × StoreState × List StoreOp :=
  if !st.avail then
    ({ status := 500, body := .error "Failed to delete user" }, st, [.get])
  else
    let users := st.users.getD []
    match users.findIdx? (fun u => u.id == id) with
    | none => ({ status := 404, body := .error "User not found" }, st, [.get])
    | some i =>
      let remaining := users.eraseIdx i
      ({ status := 204, body := .empty },
       { avail := st.avail, users := some remaining },
       [.get, .set remaining])

/-- Outcome of an axios call as observed by a gateway handler: resolve on
a 2xx response, reject with the response attached on any other status,
reject with no response on a network failure or timeout. -/
inductive AxiosResult (α : Type) where
  | success (status : Nat) (body : α)
  | httpError (status : Nat) (body : α)
  | networkError
deriving DecidableEq

/-- Axios default `validateStatus`: a received upstream response resolves
exactly when its status is in the 2xx range, otherwise rejects with the
response attached. -/
def axiosOf (r : Response) : AxiosResult RespBody :=
  if 200 ≤ r.status ∧ r.status < 300 then .success r.status r.body
  else .httpError r.status r.body

/-- Gateway timeout on the readiness probe of the data service
(gateway source line 75). -/
def gwHealthTimeoutMs : Nat := 2000

/-- Gateway `GET /health/ready` (gateway source lines 73-83): probe the
data service `/health` endpoint; 200 ready/up when the probe resolves,
503 not ready/down when it rejects. -/
def gwHealthReady (r : AxiosResult RespBody) : Response :=
  match r with
  | .success _ _ => { status := 200, body := .health "ready" "up" }
  | .httpError _ _ => { status := 503, body := .health "not ready" "down" }
  | .networkError => { status := 503, body := .health "not ready" "down" }

/-- Gateway `GET /api/users` (gateway source lines 85-93): forward the
upstream body with status 200 on success, otherwise 502 with a generic
body. -/
def gwGetUsers (r : AxiosResult RespBody) : Response :=
  match r with
  | .success _ b => { status := 200, body := b }
  | .httpError _ _ =>
      { status := 502, body := .error "Failed to fetch users from user-service" }
  | .networkError =>
      { status := 502, body := .error "Failed to fetch users from user-service" }

/-- Gateway `GET /api/users/:id` (gateway source lines 95-106): forward
the upstream body on success, pass an upstream 404 through, and map every
other failure to 502 with a generic body. -/
def gwGetUserById (r : AxiosResult RespBody) : Response :=
  match r with
  | .success _ b => { status := 200, body := b }
  | .httpError s _ =>
      if s == 404 then { status := 404, body := .error "User not found" }
      else { status := 502, body := .error "Failed to fetch user from user-service" }
  | .networkError =>
      { status := 502, body := .error "Failed to fetch user from user-service" }

/-- Gateway `POST /api/users` (gateway source lines 108-116): on success
respond 201 with the upstream body; on any rejection, including an
upstream 400 or 409, respond 502 with a generic body. The catch block
performs no `error.response` status check. -/
def gwPostUsers (r : AxiosResult RespBody) : Response :=
  match r with
  | .success _ b => { status := 201, body := b }
  | .httpError _ _ => { status := 502, body := .error "Failed to create user" }
  | .networkError => { status := 502, body := .error "Failed to create user" }

/-- Gateway `DELETE /api/users/:id` (gateway source lines 118-129): 204
with empty body on success, pass an upstream 404 through, and map every
other failure to 502 with a generic body. -/
def gwDeleteUser (r : AxiosResult RespBody) : Response :=
  match r with
  | .success _ _ => { status := 204, body := .empty }
  | .httpError s _ =>
      if s == 404 then { status := 404, body := .error "User not found" }
      else { status := 502, body := .error "Failed to delete user" }
  | .networkError =>
      { status := 502, body := .error "Failed to delete user" }

/-- Hard shutdown ceiling shared by both services (`SHUTDOWN_TIMEOUT_MS`). -/
def shutdownTimeoutMs : Nat := 30000

/-- How a shutdown run ends: the listener close callback fires (with or
without a close error, and for the data service with or without an error
while closing the store connection), or the hard ceiling timer fires
first. -/
inductive ShutdownOutcome where
  | orderly (closeErr : Bool) (depCloseErr : Bool)
  | timedOut
deriving DecidableEq

/-- Gateway close callback (gateway source lines 149-156): exit 1 on a
listener close error, else exit 0. The gateway owns no dependency
connection, so the dependency flag is unused. -/
def gwCloseExitCode (closeErr : Bool) (_depCloseErr : Bool) : Nat :=
  if closeErr then 1 else 0

/-- Data service close callback (index.js lines 212-226): close the store
connection, catching and logging any error from it, then exit with 1 when
the listener close reported an error and 0 otherwise; the store close
error does not change the exit code. -/
def usCloseExitCode (closeErr : Bool) (_redisQuitErr : Bool) : Nat :=
  if closeErr then 1 else 0

/-- Exit code of the forced-shutdown timer path in both services. -/
def forcedShutdownExitCode : Nat := 1

/-- Process exit code of a gateway shutdown run. -/
def gwExitCode : ShutdownOutcome → Nat
  | .orderly ce de => gwCloseExitCode ce de
  | .timedOut => forcedShutdownExitCode

/-- Process exit code of a data-service shutdown run. -/
def usExitCode : ShutdownOutcome → Nat
  | .orderly ce de => usCloseExitCode ce de
  | .timedOut => forcedShutdownExitCode

/-- C1 counterexample: when the data service rejects a create with a
recognized client error (here 400 for a missing name), the gateway POST
handler responds 502 with a generic body instead of passing the upstream
400 through, so the status is replaced, contrary to the claim. -/
theorem c1_counterexample :
    (postUsers { name := none, email := some "ann@x.io", role := none }
        { avail := true, users := some [] } "id-1" "t-1").1.status = 400 ∧
    gwPostUsers (axiosOf (postUsers { name := none, email := some "ann@x.io", role := none }
        { avail := true, users := some [] } "id-1" "t-1").1) =
      { status := 502, body := .error "Failed to create user" } ∧
    (502 : Nat) ≠ 400 := by
  refine ⟨rfl, ?_, by decide⟩
  rfl

/-- C1 (amended): the gateway POST handler responds 201 with the upstream
body whenever the upstream call succeeds (the data-service create success
status is always 201, so the status coincides with the upstream one), and
responds 502 with a fixed generic body on every forward failure, including
an upstream 400 or 409 client error, which is not passed through. -/
theorem c1_gw_post_mapping (s : Nat) (b : RespBody) :
    gwPostUsers (.success s b) = { status := 201, body := b } ∧
    gwPostUsers (.httpError 400 b) =
      { status := 502, body := .error "Failed to create user" } ∧
    gwPostUsers (.httpError 409 b) =
      { status := 502, body := .error "Failed to create user" } ∧
    gwPostUsers (.httpError s b) =
      { status := 502, body := .error "Failed to create user" } ∧
    gwPostUsers .networkError =
      { status := 502, body := .error "Failed to create user" } :=
  ⟨rfl, rfl, rfl, rfl, rfl⟩

/-- C2: for gateway GET and DELETE by id, an upstream 404 passes through
as 404, and every other failure (network failure or timeout, or any
non-404 error status) maps to 502 with a fixed generic body that does not
depend on the upstream response. -/
theorem c2_gw_id_error_mapping (s : Nat) (b : RespBody) (hs : s ≠ 404) :
    gwGetUserById (.httpError 404 b) =
      { status := 404, body := .error "User not found" } ∧
    gwDeleteUser (.httpError 404 b) =
      { status := 404, body := .error "User not found" } ∧
    gwGetUserById .networkError =
      { status := 502, body := .error "Failed to fetch user from user-service" } ∧
    gwDeleteUser .networkError =
      { status := 502, body := .error "Failed to delete user" } ∧
    gwGetUserById (.httpError s b) =
      { status := 502, body := .error "Failed to fetch user from user-service" } ∧
    gwDeleteUser (.httpError s b) =
      { status := 502, body := .error "Failed to delete user" } := by
  refine ⟨rfl, rfl, rfl, rfl, ?_, ?_⟩ <;> simp [gwGetUserById, gwDeleteUser, hs]

/-- C2 witness at the concrete upstream status 500. -/
theorem c2_gw_id_error_mapping_witness :
    gwGetUserById (.httpError 500 .empty) =
      { status := 502, body := .error "Failed to fetch user from user-service" } ∧
    gwDeleteUser (.httpError 500 .empty) =
      { status := 502, body := .error "Failed to delete user" } :=
  ⟨(c2_gw_id_error_mapping 500 .empty (by decide)).2.2.2.2.1,
   (c2_gw_id_error_mapping 500 .empty (by decide)).2.2.2.2.2⟩

/-- C3: the data-service create handler returns 400 when name or email is
missing, 409 when a record with the given email already exists, and
otherwise 201 with a new record carrying the input name and email, the
given role or the default, the fresh identifier and the creation
timestamp, appended to the collection, which is persisted as a whole. -/
theorem c3_create_contract (body : CreateBody) (st : StoreState) (freshId now : String)
    (hav : st.avail = true) :
    ((falsy body.name || falsy body.email) = true →
      postUsers body st freshId now =
        ({ status := 400, body := .error "Name and email are required" }, st, [])) ∧
    ((falsy body.name || falsy body.email) = false →
      (((st.users.getD []).any (fun u => u.email == body.email.getD "") = true →
        postUsers body st freshId now =
          ({ status := 409, body := .error "Email already exists" }, st, [.get])) ∧
       ((st.users.getD []).any (fun u => u.email == body.email.getD "") = false →
        postUsers body st freshId now =
          ({ status := 201, body := .user
              { id := freshId, name := body.name.getD "", email := body.email.getD "",
                role := roleOrDefault body.role, createdAt := now } },
           { avail := true, users := some (st.users.getD [] ++
              [{ id := freshId, name := body.name.getD "", email := body.email.getD "",
                 role := roleOrDefault body.role, createdAt := now }]) },
           [.get, .set (st.users.getD [] ++
              [{ id := freshId, name := body.name.getD "", email := body.email.getD "",
                 role := roleOrDefault body.role, createdAt := now }])])))) := by
  constructor
  · intro h
    simp [postUsers, h]
  · intro h
    constructor
    · intro hd
      simp [postUsers, h, hav, hd]
    · intro hd
      simp [postUsers, h, hav, hd]

/-- C3 witness: creating Ann in an empty seeded collection. -/
theorem c3_create_contract_witness :
    postUsers { name := some "Ann", email := some "ann@x.io", role := none }
        { avail := true, users := some [] } "id-1" "t-1" =
      ({ status := 201, body := .user
          { id := "id-1", name := "Ann", email := "ann@x.io", role := "user",
            createdAt := "t-1" } },
       { avail := true, users := some
          [{ id := "id-1", name := "Ann", email := "ann@x.io", role := "user",
             createdAt := "t-1" }] },
       [.get, .set
          [{ id := "id-1", name := "Ann", email := "ann@x.io", role := "user",
             createdAt := "t-1" }]]) := by
  have h := (c3_create_contract { name := some "Ann", email := some "ann@x.io", role := none }
      { avail := true, users := some [] } "id-1" "t-1" rfl).2 (by decide)
  simpa using h.2 (by decide)

/-- C4: the data-service list handler, when the store read succeeds,
responds 200 with the parsed collection and its length as total; when the
collection key is absent the body is the empty listing with total 0, and
no error is produced. -/
theorem c4_list_contract (st : StoreState) (hav : st.avail = true) :
    getUsers st =
      ({ status := 200, body := .listing (st.users.getD []) (st.users.getD []).length },
       [.get]) ∧
    (st.users = none → getUsers st = ({ status := 200, body := .listing [] 0 }, [.get])) := by
  constructor
  · simp [getUsers, hav]
  · intro hn
    simp [getUsers, hav, hn]

/-- C4 witness: a never-seeded store. -/
theorem c4_list_contract_witness :
    getUsers { avail := true, users := none } =
      ({ status := 200, body := .listing [] 0 }, [.get]) :=
  (c4_list_contract { avail := true, users := none } rfl).2 rfl

/-- C5: seeding writes the sample records only when the collection key is
absent, performs no write when it is present, and running it twice leaves
the stored collection identical to running it once, even when the second
run would generate different sample records. -/
theorem c5_seed_idempotent (sample sample2 : List User) (st : StoreState) :
    (st.avail = true → st.users = none →
      initializeData sample st = ({ avail := true, users := some sample }, true)) ∧
    (∀ u, st.users = some u → initializeData sample st = (st, false)) ∧
    (initializeData sample2 (initializeData sample st).1).1 =
      (initializeData sample st).1 := by
  refine ⟨fun hav hn => ?_, fun u hu => ?_, ?_⟩
  · simp [initializeData, hav, hn]
  · cases st with
    | mk avail users =>
      cases avail <;> simp_all [initializeData]
  · cases st with
    | mk avail users =>
      cases avail <;> cases users <;> simp [initializeData]

/-- C5 witness: seeding an absent key writes the sample, and a second run
changes nothing. -/
theorem c5_seed_idempotent_witness :
    initializeData
        [{ id := "u1", name := "John Doe", email := "john@example.com",
           role := "admin", createdAt := "t0" }]
        { avail := true, users := none } =
      ({ avail := true, users := some
          [{ id := "u1", name := "John Doe", email := "john@example.com",
             role := "admin", createdAt := "t0" }] }, true) ∧
    (initializeData
        [{ id := "u2", name := "Jane Smith", email := "jane@example.com",
           role := "user", createdAt := "t1" }]
        (initializeData
          [{ id := "u1", name := "John Doe", email := "john@example.com",
             role := "admin", createdAt := "t0" }]
          { avail := true, users := none }).1).1 =
      (initializeData
        [{ id := "u1", name := "John Doe", email := "john@example.com",
           role := "admin", createdAt := "t0" }]
        { avail := true, users := none }).1 :=
  ⟨(c5_seed_idempotent
      [{ id := "u1", name := "John Doe", email := "john@example.com",
         role := "admin", createdAt := "t0" }]
      [{ id := "u2", name := "Jane Smith", email := "jane@example.com",
         role := "user", createdAt := "t1" }]
      { avail := true, users := none }).1 rfl rfl,
   (c5_seed_idempotent
      [{ id := "u1", name := "John Doe", email := "john@example.com",
         role := "admin", createdAt := "t0" }]
      [{ id := "u2", name := "Jane Smith", email := "jane@example.com",
         role := "user", createdAt := "t1" }]
      { avail := true, users := none }).2.2⟩

/-- C6: deleting a non-existent identifier responds 404 and leaves the
store state unchanged, with no write performed (the operation trace holds
only the read); deleting an existing identifier removes that record,
persists the whole remaining collection, and responds 204. -/
theorem c6_delete_contract (id : String) (st : StoreState) (hav : st.avail = true) :
    ((st.users.getD []).findIdx? (fun u => u.id == id) = none →
      deleteUserById id st =
        ({ status := 404, body := .error "User not found" }, st, [.get])) ∧
    (∀ i, (st.users.getD []).findIdx? (fun u => u.id == id) = some i →
      deleteUserById id st =
        ({ status := 204, body := .empty },
         { avail := true, users := some ((st.users.getD []).eraseIdx i) },
         [.get, .set ((st.users.getD []).eraseIdx i)])) := by
  constructor
  · intro hn
    simp [deleteUserById, hav, hn]
  · intro i hi
    simp [deleteUserById, hav, hi]

/-- C6 witness: deleting an unknown id from a one-record collection. -/
theorem c6_delete_contract_witness :
    deleteUserById "zzz"
        { avail := true,
          users := some [{ id := "u1", name := "John Doe", email := "john@example.com",
                           role := "admin", createdAt := "t0" }] } =
      ({ status := 404, body := .error "User not found" },
       { avail := true,
         users := some [{ id := "u1", name := "John Doe", email := "john@example.com",
                          role := "admin", createdAt := "t0" }] }, [.get]) :=
  (c6_delete_contract "zzz"
      { avail := true,
        users := some [{ id := "u1", name := "John Doe", email := "john@example.com",
                         role := "admin", createdAt := "t0" }] } rfl).1 (by decide)

/-- C7: the data-service readiness handler responds 200 ready/up when the
store ping succeeds and 503 not ready/down when it fails or times out; it
is a total function on the ping outcome, so every outcome yields one of
these two responses and no exception escapes. -/
theorem c7_ready_probe :
    healthReady true = { status := 200, body := .health "ready" "up" } ∧
    healthReady false = { status := 503, body := .health "not ready" "down" } ∧
    ∀ pingOk, (healthReady pingOk).status = 200 ∨ (healthReady pingOk).status = 503 := by
  decide

/-- C8: the gateway readiness handler probes the data-service plain
health endpoint with a 2000 ms timeout; that endpoint always responds
200, so a reachable data service makes the probe succeed and the gateway
respond 200 ready/up, while a rejected probe (unreachable or timed out)
yields 503 not ready/down. -/
theorem c8_gw_ready (ts : String) :
    gwHealthTimeoutMs = 2000 ∧
    (healthHandler ts).status = 200 ∧
    gwHealthReady (axiosOf (healthHandler ts)) =
      { status := 200, body := .health "ready" "up" } ∧
    gwHealthReady .networkError =
      { status := 503, body := .health "not ready" "down" } ∧
    (∀ s b, gwHealthReady (.success s b) =
      { status := 200, body := .health "ready" "up" }) ∧
    (∀ s b, gwHealthReady (.httpError s b) =
      { status := 503, body := .health "not ready" "down" }) := by
  refine ⟨rfl, rfl, ?_, rfl, fun s b => rfl, fun s b => rfl⟩
  rfl

/-- C9: with a 30000 ms hard ceiling, both services exit 0 when the
listener close callback runs without a close error (in the data service a
store close error is caught and does not change the code), exit 1 when
the listener close reported an error, and exit 1 when the hard timer
fires first. -/
theorem c9_shutdown_exit :
    shutdownTimeoutMs = 30000 ∧
    (∀ depErr, usExitCode (.orderly false depErr) = 0) ∧
    (∀ depErr, usExitCode (.orderly true depErr) = 1) ∧
    usExitCode .timedOut = 1 ∧
    (∀ depErr, gwExitCode (.orderly false depErr) = 0) ∧
    (∀ depErr, gwExitCode (.orderly true depErr) = 1) ∧
    gwExitCode .timedOut = 1 := by
  decide

/-- C10: when the create body lacks a name or an email, the handler
responds 400 with an empty store-operation trace and an unchanged store
state, for every store state including an unavailable store, because
validation precedes any store access. -/
theorem c10_validation_before_store (body : CreateBody) (st : StoreState)
    (freshId now : String) (h : (falsy body.name || falsy body.email) = true) :
    postUsers body st freshId now =
      ({ status := 400, body := .error "Name and email are required" }, st, []) := by
  simp [postUsers, h]

/-- C10 witness: a missing name with the store down still yields 400 and
no store operation. -/
theorem c10_validation_before_store_witness :
    postUsers { name := none, email := some "ann@x.io", role := none }
        { avail := false, users := none } "id-1" "t-1" =
      ({ status := 400, body := .error "Name and email are required" },
       { avail := false, users := none }, []) :=
  c10_validation_before_store { name := none, email := some "ann@x.io", role := none }
    { avail := false, users := none } "id-1" "t-1" rfl

end Spec2Proof
